import Mathlib

/-!
Verification of the TaxiScheduler dispatch system.

The Go sources are embedded shallowly:

* `Location`, `RideStatus`, `Taxi`, `Ride`, `RideRequest` mirror `types.go`.
* `CalculateDistance` mirrors `location.go` (`LocationService.CalculateDistance`);
  Go `int` is modelled as `Int` (all values arising in the program are tiny, so
  64-bit overflow is never reached).
* `TaxiStore` mirrors `store.go`.  The Go `map[int]*Taxi` is modelled as a list
  of taxi records with unique IDs; a `*Taxi` pointer is modelled by the taxi's
  ID (records are never re-allocated at an ID, so a pointer denotes the live
  record with that ID at any moment).
* `AssignClosestTaxi` / `CalculateRideDuration` mirror `assigner.go`.  The Go
  map iteration order of `GetAllAvailable` is nondeterministic, so theorems
  about assignment quantify over an arbitrary permutation of the available
  snapshot.
* `processRequest`, `endRide` mirror `scheduler.go`; `RequestRide`, `Shutdown`
  mirror `server.go`.  Channel send on the buffered `rideRequests` channel
  (capacity 150) is modelled explicitly: it enqueues when space is free, blocks
  when full, and panics when the channel is closed, matching Go semantics.
* `Step` is the atomic-interleaving transition system of the whole server
  (registration, submission, request processing, ride completion, shutdown);
  `Reachable` is its reflexive-transitive closure from the initial state.
-/

/-- A 2D coordinate, from `types.go` (`Location`). -/
structure Location where
  x : Int
  y : Int
deriving DecidableEq, Repr

/-- Ride lifecycle states, from `types.go` (`RideStatus`). -/
inductive RideStatus where
  | CREATED
  | ASSIGNED
  | IN_PROGRESS
  | FINISHED
deriving DecidableEq, Repr

/-- A taxi record, from `types.go` (`Taxi`). -/
structure Taxi where
  id : Nat
  location : Location
  isAvailable : Bool
deriving DecidableEq, Repr

/-- A ride record, from `types.go` (`Ride`).  `taxiID = 0` means unassigned. -/
structure Ride where
  id : Nat
  clientID : Int
  taxiID : Nat
  startLocation : Location
  endLocation : Location
  status : RideStatus
deriving DecidableEq, Repr

/-- A ride request message, from `types.go` (`RideRequest`). -/
structure RideRequest where
  clientID : Int
  startLocation : Location
  endLocation : Location
deriving DecidableEq, Repr

/-- Manhattan distance, from `location.go` (`LocationService.CalculateDistance`):
negate each coordinate difference when negative, then sum. -/
def CalculateDistance (fromLoc toLoc : Location) : Int :=
  let xDist := fromLoc.x - toLoc.x
  let yDist := fromLoc.y - toLoc.y
  let xDist := if xDist < 0 then -xDist else xDist
  let yDist := if yDist < 0 then -yDist else yDist
  xDist + yDist

/-- The taxi store, from `store.go` (`TaxiStore`): the `map[int]*Taxi` is a list
of records with unique IDs, plus the auto-incrementing `nextID` counter. -/
structure TaxiStore where
  taxis : List Taxi
  nextID : Nat
deriving DecidableEq, Repr

/-- `NewTaxiStore` from `store.go`: empty map, `nextID = 1`. -/
def TaxiStore.new : TaxiStore :=
  { taxis := [], nextID := 1 }

/-- `TaxiStore.Add` from `store.go`: insert an available taxi at `location`
under the next sequential ID and return that ID. -/
def TaxiStore.Add (ts : TaxiStore) (location : Location) : Nat × TaxiStore :=
  let id := ts.nextID
  (id, { taxis := ts.taxis ++ [{ id := id, location := location, isAvailable := true }],
         nextID := ts.nextID + 1 })

/-- `TaxiStore.Get` from `store.go`: look a taxi up by ID (`none` if absent). -/
def TaxiStore.Get (ts : TaxiStore) (id : Nat) : Option Taxi :=
  ts.taxis.find? (fun t => t.id == id)

/-- `TaxiStore.GetAllAvailable` from `store.go`: the taxis with
`IsAvailable = true`.  The Go function returns a freshly allocated slice of
`*Taxi` pointers; this function returns the records those pointers dereference
to at call time (see `GetAllAvailableRefs` for the pointer view). -/
def TaxiStore.GetAllAvailable (ts : TaxiStore) : List Taxi :=
  ts.taxis.filter (fun t => t.isAvailable)

/-- The pointer view of `GetAllAvailable`: the Go slice holds `*Taxi` pointers,
modelled by the IDs of the live records (a record is never re-allocated, so the
ID identifies the pointee for the rest of the run). -/
def TaxiStore.GetAllAvailableRefs (ts : TaxiStore) : List Nat :=
  (ts.taxis.filter (fun t => t.isAvailable)).map Taxi.id

/-- `TaxiStore.SetAvailability` from `store.go`: returns `false` and leaves the
store untouched when the ID is unknown, otherwise mutates that record's
availability in place. -/
def TaxiStore.SetAvailability (ts : TaxiStore) (id : Nat) (available : Bool) :
    Bool × TaxiStore :=
  if ts.taxis.any (fun t => t.id == id) then
    (true, { ts with
             taxis := ts.taxis.map (fun t => if t.id = id then { t with isAvailable := available } else t) })
  else
    (false, ts)

/-- `TaxiStore.UpdateLocation` from `store.go`: returns `false` and leaves the
store untouched when the ID is unknown, otherwise mutates that record's
location in place. -/
def TaxiStore.UpdateLocation (ts : TaxiStore) (id : Nat) (location : Location) :
    Bool × TaxiStore :=
  if ts.taxis.any (fun t => t.id == id) then
    (true, { ts with
             taxis := ts.taxis.map (fun t => if t.id = id then { t with location := location } else t) })
  else
    (false, ts)

/-- `TaxiStore.Count` from `store.go`. -/
def TaxiStore.Count (ts : TaxiStore) : Nat :=
  ts.taxis.length

/-- The search loop inside `AssignClosestTaxi` (`assigner.go`): scan the
snapshot, keep the current best taxi and its distance; `closestDistance = -1`
marks "no taxi found yet"; a later taxi replaces the best only on a strictly
smaller distance. -/
def findClosestLoop (taxis : List Taxi) (pickup : Location)
    (closestTaxi : Option Taxi) (closestDistance : Int) : Option Taxi :=
  match taxis with
  | [] => closestTaxi
  | taxi :: rest =>
      let distance := CalculateDistance taxi.location pickup
      if closestDistance = -1 ∨ distance < closestDistance then
        findClosestLoop rest pickup (some taxi) distance
      else
        findClosestLoop rest pickup closestTaxi closestDistance

/-- `TaxiAssigner.AssignClosestTaxi` from `assigner.go`, parameterised by the
snapshot (the Go code takes `store.GetAllAvailable()`, whose map iteration
order is nondeterministic; theorems quantify over permutations).  Returns the
assigned taxi (or `none`), the updated store, and the updated ride: on an empty
snapshot return `none`; otherwise select the closest taxi, reserve it via
`SetAvailability _ false` (aborting with `none` if that fails), and set the
ride's `taxiID` and `ASSIGNED` status. -/
def AssignClosestTaxi (store : TaxiStore) (snapshot : List Taxi) (ride : Ride) :
    Option Taxi × TaxiStore × Ride :=
  if snapshot.isEmpty then
    (none, store, ride)
  else
    match findClosestLoop snapshot ride.startLocation none (-1) with
    | none => (none, store, ride)
    | some closestTaxi =>
        match store.SetAvailability closestTaxi.id false with
        | (false, store1) => (none, store1, ride)
        | (true, store1) =>
            (some closestTaxi, store1,
             { ride with taxiID := closestTaxi.id, status := RideStatus.ASSIGNED })

/-- `TaxiAssigner.CalculateRideDuration` from `assigner.go`:
distance(taxi → pickup) + distance(pickup → destination). -/
def CalculateRideDuration (taxi : Taxi) (ride : Ride) : Int :=
  let pickupDistance := CalculateDistance taxi.location ride.startLocation
  let rideDistance := CalculateDistance ride.startLocation ride.endLocation
  pickupDistance + rideDistance

/-- `RideScheduler.processRequest` from `scheduler.go`, parameterised by the
availability snapshot: allocate the next ride ID, build the ride in `CREATED`,
try to assign a taxi; on success `startRide` moves the ride to `IN_PROGRESS`
(completion is a separate, later step of the transition system).  Returns the
updated store, the updated `nextRideID`, and the ride record. -/
def processRequest (store : TaxiStore) (nextRideID : Nat) (snapshot : List Taxi)
    (request : RideRequest) : TaxiStore × Nat × Ride :=
  let ride : Ride :=
    { id := nextRideID, clientID := request.clientID, taxiID := 0,
      startLocation := request.startLocation, endLocation := request.endLocation,
      status := RideStatus.CREATED }
  match AssignClosestTaxi store snapshot ride with
  | (none, store1, ride1) => (store1, nextRideID + 1, ride1)
  | (some _, store1, ride1) =>
      (store1, nextRideID + 1, { ride1 with status := RideStatus.IN_PROGRESS })

/-- `RideScheduler.endRide` from `scheduler.go`: mark the ride `FINISHED`, move
the taxi to the ride's destination, and mark it available again.  Returns the
updated store and the updated ride. -/
def endRide (store : TaxiStore) (ride : Ride) (taxi : Taxi) : TaxiStore × Ride :=
  let ride1 := { ride with status := RideStatus.FINISHED }
  let store1 := (store.UpdateLocation taxi.id ride.endLocation).2
  let store2 := (store1.SetAvailability taxi.id true).2
  (store2, ride1)

/-- Capacity of the buffered `rideRequests` channel (`server.go`:
`make(chan RideRequest, 150)`). -/
def queueCapacity : Nat := 150

/-- Outcome of a `Server.RequestRide` call.  A Go send on a buffered channel
enqueues when a slot is free, blocks the sender when the buffer is full, and
panics when the channel is closed; `blocked` and `panicked` record the calls
that do not return normally. -/
inductive RequestRideResult where
  | accepted
  | rejected
  | blocked
  | panicked
deriving DecidableEq, Repr

/-- State of the whole server (`server.go` / `scheduler.go`): the taxi store,
the buffered `rideRequests` channel content, every ride record created by the
scheduler, the scheduler's `nextRideID`, the server's `shutdown` flag, and
whether the `rideRequests` channel has been closed. -/
structure SysState where
  store : TaxiStore
  queue : List RideRequest
  rides : List Ride
  nextRideID : Nat
  shutdown : Bool
  closedChan : Bool
deriving DecidableEq, Repr

/-- `Server.RequestRide` from `server.go`: reject (return `false`) when the
shutdown flag is set; otherwise send on the `rideRequests` channel — the send
enqueues when the buffer has room, blocks when it is full, and panics if the
channel is closed. -/
def RequestRide (s : SysState) (request : RideRequest) : RequestRideResult × SysState :=
  if s.shutdown then
    (RequestRideResult.rejected, s)
  else if s.closedChan then
    (RequestRideResult.panicked, s)
  else if s.queue.length < queueCapacity then
    (RequestRideResult.accepted, { s with queue := s.queue ++ [request] })
  else
    (RequestRideResult.blocked, s)

/-- Outcome of a `Server.Shutdown` call: normal return, or a Go runtime panic
(closing an already-closed channel panics). -/
inductive ShutdownResult where
  | ok
  | panicked
deriving DecidableEq, Repr

/-- `Server.Shutdown` from `server.go`: set the shutdown flag, then
`close(s.rideRequests)`.  Closing a channel that is already closed panics at
the `close` call (the flag has already been set by then). -/
def Shutdown (s : SysState) : ShutdownResult × SysState :=
  let s1 := { s with shutdown := true }
  if s1.closedChan then
    (ShutdownResult.panicked, s1)
  else
    (ShutdownResult.ok, { s1 with closedChan := true })

/-- The initial server state (`NewServer` in `server.go`): empty store, empty
channel, no rides, ride IDs start at 1, not shut down. -/
def SysState.init : SysState :=
  { store := TaxiStore.new, queue := [], rides := [], nextRideID := 1,
    shutdown := false, closedChan := false }

/-- A ride currently holds a reservation on its taxi: it is `ASSIGNED` or
`IN_PROGRESS`. -/
def rideActive (r : Ride) : Prop :=
  r.status = RideStatus.ASSIGNED ∨ r.status = RideStatus.IN_PROGRESS

instance (r : Ride) : Decidable (rideActive r) := by
  unfold rideActive
  infer_instance

/-- Atomic steps of the system, interleaving the operations of `server.go`,
`scheduler.go` and `store.go`:

* `register`: `Server.RegisterTaxi` → `TaxiStore.Add`;
* `submit`: `Server.RequestRide` (any outcome — only `accepted` changes state);
* `process`: the scheduler loop takes the front request off the channel and
  runs `processRequest`; the availability snapshot is any permutation of
  `GetAllAvailable` (Go map iteration order);
* `complete`: the completion goroutine of an `IN_PROGRESS` ride fires,
  running `endRide` with the taxi pointer captured at assignment (its `id`
  field equals the ride's `taxiID` and never changes);
* `shutdownCall`: `Server.Shutdown`. -/
inductive Step : SysState → SysState → Prop where
  | register (s : SysState) (loc : Location) :
      Step s { s with store := (s.store.Add loc).2 }
  | submit (s : SysState) (request : RideRequest) :
      Step s (RequestRide s request).2
  | process (s : SysState) (request : RideRequest) (rest : List RideRequest)
      (snapshot : List Taxi)
      (hq : s.queue = request :: rest)
      (hsnap : List.Perm snapshot s.store.GetAllAvailable) :
      Step s { s with
               store := (processRequest s.store s.nextRideID snapshot request).1,
               queue := rest,
               rides := s.rides ++ [(processRequest s.store s.nextRideID snapshot request).2.2],
               nextRideID := (processRequest s.store s.nextRideID snapshot request).2.1 }
  | complete (s : SysState) (ride : Ride) (taxi : Taxi)
      (hr : ride ∈ s.rides) (hst : ride.status = RideStatus.IN_PROGRESS)
      (hid : taxi.id = ride.taxiID) :
      Step s { s with
               store := (endRide s.store ride taxi).1,
               rides := s.rides.map (fun r => if r.id = ride.id then (endRide s.store ride taxi).2 else r) }
  | shutdownCall (s : SysState) :
      Step s (Shutdown s).2

/-- A state reachable from the initial state by atomic steps. -/
def Reachable (s : SysState) : Prop :=
  Relation.ReflTransGen Step SysState.init s

/-- A whole sequence of `register` calls (`Server.RegisterTaxi` →
`TaxiManager.CreateTaxi` → `TaxiStore.Add`), returning the assigned IDs in call
order together with the final store. -/
def registerAll (ts : TaxiStore) : List Location → List Nat × TaxiStore
  | [] => ([], ts)
  | loc :: rest =>
      let (id, ts1) := ts.Add loc
      let (ids, ts2) := registerAll ts1 rest
      (id :: ids, ts2)

/-- The bookkeeping invariant of the system relating store and rides: taxi and
ride IDs are unique and below their counters, every active (`ASSIGNED` or
`IN_PROGRESS`) ride points at an existing taxi, a taxi is unavailable exactly
when some active ride holds it, and no two active rides hold the same taxi. -/
structure SysInv (s : SysState) : Prop where
  taxiIdsNodup : (s.store.taxis.map Taxi.id).Nodup
  taxiIdsLt : ∀ t ∈ s.store.taxis, t.id < s.store.nextID
  rideIdsNodup : (s.rides.map Ride.id).Nodup
  rideIdsLt : ∀ r ∈ s.rides, r.id < s.nextRideID
  activeRef : ∀ r ∈ s.rides, rideActive r → ∃ t ∈ s.store.taxis, t.id = r.taxiID
  availIff : ∀ t ∈ s.store.taxis,
      (t.isAvailable = false ↔ ∃ r ∈ s.rides, rideActive r ∧ r.taxiID = t.id)
  uniqueRes : ∀ r1 ∈ s.rides, ∀ r2 ∈ s.rides,
      rideActive r1 → rideActive r2 → r1.taxiID = r2.taxiID → r1 = r2

/-! ## Basic facts about the distance function -/

lemma calcDist_eq_abs (a b : Location) :
    CalculateDistance a b = |a.x - b.x| + |a.y - b.y| := by
  unfold CalculateDistance
  rcases lt_or_le (a.x - b.x) 0 with hx | hx <;>
    rcases lt_or_le (a.y - b.y) 0 with hy | hy <;>
      simp [hx, hy, not_lt.mpr, abs_of_neg, abs_of_nonneg, lt_iff_not_le]

lemma calcDist_nonneg (a b : Location) : 0 ≤ CalculateDistance a b := by
  rw [calcDist_eq_abs]
  exact add_nonneg (abs_nonneg _) (abs_nonneg _)

lemma calcDist_ne_neg_one (a b : Location) : CalculateDistance a b ≠ -1 := by
  have := calcDist_nonneg a b
  omega

/-- Claim C10: `CalculateDistance` is the Manhattan metric
`|x1 - x2| + |y1 - y2|`: it is non-negative, symmetric, zero on equal points,
and `distance((0,0),(3,4)) = 7`. -/
theorem C10_distance_manhattan :
    (∀ a b : Location, CalculateDistance a b = |a.x - b.x| + |a.y - b.y|) ∧
    (∀ a b : Location, 0 ≤ CalculateDistance a b) ∧
    (∀ a b : Location, CalculateDistance a b = CalculateDistance b a) ∧
    (∀ a : Location, CalculateDistance a a = 0) ∧
    CalculateDistance { x := 0, y := 0 } { x := 3, y := 4 } = 7 := by
  refine ⟨calcDist_eq_abs, calcDist_nonneg, ?_, ?_, by decide⟩
  · intro a b
    rw [calcDist_eq_abs, calcDist_eq_abs, abs_sub_comm, abs_sub_comm a.y b.y]
  · intro a
    rw [calcDist_eq_abs]
    simp

/-! ## Basic facts about the store operations -/

lemma taxis_any_iff (l : List Taxi) (id : Nat) :
    l.any (fun t => t.id == id) = true ↔ ∃ t ∈ l, t.id = id := by
  simp [List.any_eq_true]

lemma setAvail_fst (ts : TaxiStore) (id : Nat) (b : Bool) :
    (ts.SetAvailability id b).1 = ts.taxis.any (fun t => t.id == id) := by
  unfold TaxiStore.SetAvailability
  split <;> simp_all

lemma setAvail_false_unchanged (ts : TaxiStore) (id : Nat) (b : Bool)
    (h : (ts.SetAvailability id b).1 = false) : (ts.SetAvailability id b).2 = ts := by
  rw [setAvail_fst] at h
  unfold TaxiStore.SetAvailability
  simp [h]

lemma setAvail_taxis (ts : TaxiStore) (id : Nat) (b : Bool) :
    ((ts.SetAvailability id b).2).taxis
      = ts.taxis.map (fun t => if t.id = id then { t with isAvailable := b } else t) := by
  unfold TaxiStore.SetAvailability
  split
  · rfl
  · next h =>
    have habs : ∀ t ∈ ts.taxis, t.id ≠ id := by
      intro t ht heq
      exact h ((taxis_any_iff ts.taxis id).mpr ⟨t, ht, heq⟩)
    have hmap : ∀ t ∈ ts.taxis, (if t.id = id then { t with isAvailable := b } else t) = t := by
      intro t ht
      simp [habs t ht]
    rw [List.map_congr_left hmap]
    simp

lemma setAvail_nextID (ts : TaxiStore) (id : Nat) (b : Bool) :
    ((ts.SetAvailability id b).2).nextID = ts.nextID := by
  unfold TaxiStore.SetAvailability
  split <;> rfl

lemma updateLoc_fst (ts : TaxiStore) (id : Nat) (loc : Location) :
    (ts.UpdateLocation id loc).1 = ts.taxis.any (fun t => t.id == id) := by
  unfold TaxiStore.UpdateLocation
  split <;> simp_all

lemma updateLoc_false_unchanged (ts : TaxiStore) (id : Nat) (loc : Location)
    (h : (ts.UpdateLocation id loc).1 = false) : (ts.UpdateLocation id loc).2 = ts := by
  rw [updateLoc_fst] at h
  unfold TaxiStore.UpdateLocation
  simp [h]

lemma updateLoc_taxis (ts : TaxiStore) (id : Nat) (loc : Location) :
    ((ts.UpdateLocation id loc).2).taxis
      = ts.taxis.map (fun t => if t.id = id then { t with location := loc } else t) := by
  unfold TaxiStore.UpdateLocation
  split
  · rfl
  · next h =>
    have habs : ∀ t ∈ ts.taxis, t.id ≠ id := by
      intro t ht heq
      exact h ((taxis_any_iff ts.taxis id).mpr ⟨t, ht, heq⟩)
    have hmap : ∀ t ∈ ts.taxis, (if t.id = id then { t with location := loc } else t) = t := by
      intro t ht
      simp [habs t ht]
    rw [List.map_congr_left hmap]
    simp

lemma updateLoc_nextID (ts : TaxiStore) (id : Nat) (loc : Location) :
    ((ts.UpdateLocation id loc).2).nextID = ts.nextID := by
  unfold TaxiStore.UpdateLocation
  split <;> rfl

/-- Claim C9: `SetAvailability` and `UpdateLocation` return `false` exactly when
the ID is absent from the store and `true` when it is present, and whenever they
return `false` the store is completely unchanged (unknown-ID misuse is a
reported not-found result, never a silent mutation or record creation). -/
theorem C9_unknown_id_not_found (ts : TaxiStore) (id : Nat) (b : Bool) (loc : Location) :
    ((ts.SetAvailability id b).1 = false ↔ ∀ t ∈ ts.taxis, t.id ≠ id) ∧
    ((ts.UpdateLocation id loc).1 = false ↔ ∀ t ∈ ts.taxis, t.id ≠ id) ∧
    ((ts.SetAvailability id b).1 = false → (ts.SetAvailability id b).2 = ts) ∧
    ((ts.UpdateLocation id loc).1 = false → (ts.UpdateLocation id loc).2 = ts) := by
  refine ⟨?_, ?_, setAvail_false_unchanged ts id b, updateLoc_false_unchanged ts id loc⟩
  · rw [setAvail_fst]
    simp [List.any_eq_false]
  · rw [updateLoc_fst]
    simp [List.any_eq_false]

/-- Witness for C9 at a concrete store: ID 5 is absent from the one-taxi store,
both operations report `false` and leave the store unchanged. -/
theorem C9_witness :
    (((TaxiStore.new.Add { x := 0, y := 0 }).2.SetAvailability 5 true).1 = false
        ↔ ∀ t ∈ (TaxiStore.new.Add { x := 0, y := 0 }).2.taxis, t.id ≠ 5) ∧
    (((TaxiStore.new.Add { x := 0, y := 0 }).2.UpdateLocation 5 { x := 1, y := 1 }).1 = false
        ↔ ∀ t ∈ (TaxiStore.new.Add { x := 0, y := 0 }).2.taxis, t.id ≠ 5) ∧
    (((TaxiStore.new.Add { x := 0, y := 0 }).2.SetAvailability 5 true).1 = false
        → ((TaxiStore.new.Add { x := 0, y := 0 }).2.SetAvailability 5 true).2
            = (TaxiStore.new.Add { x := 0, y := 0 }).2) ∧
    (((TaxiStore.new.Add { x := 0, y := 0 }).2.UpdateLocation 5 { x := 1, y := 1 }).1 = false
        → ((TaxiStore.new.Add { x := 0, y := 0 }).2.UpdateLocation 5 { x := 1, y := 1 }).2
            = (TaxiStore.new.Add { x := 0, y := 0 }).2) :=
  C9_unknown_id_not_found (TaxiStore.new.Add { x := 0, y := 0 }).2 5 true { x := 1, y := 1 }

/-! ## Vehicle registration: sequences of `Add` calls -/


lemma registerAll_ids (locs : List Location) :
    ∀ ts : TaxiStore, (registerAll ts locs).1 = List.range' ts.nextID locs.length := by
  induction locs with
  | nil => intro ts; rfl
  | cons loc rest ih =>
      intro ts
      show ts.nextID :: (registerAll (ts.Add loc).2 rest).1 = _
      rw [ih]
      simp only [List.length_cons, List.range'_succ]
      rfl

lemma registerAll_taxis (locs : List Location) :
    ∀ ts : TaxiStore,
      ((registerAll ts locs).2).taxis
        = ts.taxis ++ ((List.range' ts.nextID locs.length).zip locs).map
            (fun p => { id := p.1, location := p.2, isAvailable := true }) := by
  induction locs with
  | nil => intro ts; simp [registerAll]
  | cons loc rest ih =>
      intro ts
      show ((registerAll (ts.Add loc).2 rest).2).taxis = _
      rw [ih]
      simp only [List.length_cons, List.range'_succ]
      show (ts.taxis ++ [{ id := ts.nextID, location := loc, isAvailable := true }]) ++ _ = _
      rw [List.append_assoc]
      rfl

/-- Claim C8: every `register`/`Add` call succeeds (the operation is total and
has no failure path), the IDs assigned by a sequence of calls are strictly
increasing in registration order (hence unique, and each is strictly greater
than every previously assigned ID), and each call inserts a vehicle carrying
exactly its assigned ID and the given location with `isAvailable = true`. -/
theorem C8_register_ids_strictly_increasing (locs : List Location) :
    ((registerAll TaxiStore.new locs).1).Pairwise (· < ·) ∧
    ((registerAll TaxiStore.new locs).2).taxis
      = (((registerAll TaxiStore.new locs).1).zip locs).map
          (fun p => { id := p.1, location := p.2, isAvailable := true }) := by
  rw [registerAll_ids, registerAll_taxis]
  exact ⟨List.pairwise_lt_range' _ _, by simp [TaxiStore.new]⟩

/-! ## The availability snapshot and pointer aliasing -/

lemma get_after_updateLoc (ts : TaxiStore) (i : Nat) (loc : Location) :
    ((ts.UpdateLocation i loc).2).Get i
      = (ts.Get i).map (fun t => if t.id = i then { t with location := loc } else t) := by
  unfold TaxiStore.Get
  rw [updateLoc_taxis, List.find?_map]
  congr 1
  congr 1
  funext t
  by_cases h : t.id = i <;> simp [h]

/-- Claim C5 counterexample: with one available taxi at `(0,0)`, take the
availability snapshot (a slice of `*Taxi` pointers, modelled by IDs), then
relocate the taxi to `(5,5)`; the record seen through the snapshot's pointer
has changed, so the snapshot does not hold copies of the vehicle records. -/
theorem C5_counterexample :
    1 ∈ ((TaxiStore.new.Add { x := 0, y := 0 }).2).GetAllAvailableRefs ∧
    ((((TaxiStore.new.Add { x := 0, y := 0 }).2).UpdateLocation 1 { x := 5, y := 5 }).2).Get 1
      ≠ ((TaxiStore.new.Add { x := 0, y := 0 }).2).Get 1 := by
  decide

/-- Claim C5 (amended): `GetAllAvailable` returns a freshly allocated slice
whose membership is exactly the vehicles whose `available` flag is true at call
time, but the slice elements are pointers to the live records, not copies: a
later store mutation (here `relocate`) is visible through a pointer already
returned to the caller, the pointee then carrying the updated location. -/
theorem C5_snapshot_membership_and_aliasing (ts : TaxiStore) :
    (∀ i : Nat, i ∈ ts.GetAllAvailableRefs ↔ ∃ t ∈ ts.taxis, t.isAvailable = true ∧ t.id = i) ∧
    (∀ i ∈ ts.GetAllAvailableRefs, ∀ loc : Location,
       ∃ t : Taxi, ts.Get i = some t ∧
         ((ts.UpdateLocation i loc).2).Get i = some { t with location := loc }) := by
  have hmem : ∀ i : Nat, i ∈ ts.GetAllAvailableRefs ↔ ∃ t ∈ ts.taxis, t.isAvailable = true ∧ t.id = i := by
    intro i
    unfold TaxiStore.GetAllAvailableRefs
    simp [List.mem_filter]
    constructor
    · rintro ⟨t, ⟨htm, hav⟩, hid⟩
      exact ⟨t, htm, hav, hid⟩
    · rintro ⟨t, htm, hav, hid⟩
      exact ⟨t, ⟨htm, hav⟩, hid⟩
  refine ⟨hmem, ?_⟩
  intro i hi loc
  obtain ⟨t0, ht0m, ht0a, ht0i⟩ := (hmem i).mp hi
  have hsome : (ts.Get i).isSome := by
    unfold TaxiStore.Get
    rw [List.find?_isSome]
    exact ⟨t0, ht0m, by simp [ht0i]⟩
  obtain ⟨t, ht⟩ := Option.isSome_iff_exists.mp hsome
  have htid : t.id = i := by
    have := List.find?_some ht
    simpa using this
  refine ⟨t, ht, ?_⟩
  rw [get_after_updateLoc, ht]
  simp [htid]

/-- Witness for the amended C5 at a concrete store: with one available taxi at
`(0,0)`, pointer 1 is in the snapshot, and after relocating to `(5,5)` the
record seen through pointer 1 carries the new location. -/
theorem C5_amended_witness :
    (1 ∈ ((TaxiStore.new.Add { x := 0, y := 0 }).2).GetAllAvailableRefs ↔
      ∃ t ∈ ((TaxiStore.new.Add { x := 0, y := 0 }).2).taxis, t.isAvailable = true ∧ t.id = 1) ∧
    ∃ t : Taxi, ((TaxiStore.new.Add { x := 0, y := 0 }).2).Get 1 = some t ∧
      ((((TaxiStore.new.Add { x := 0, y := 0 }).2).UpdateLocation 1 { x := 5, y := 5 }).2).Get 1
        = some { t with location := { x := 5, y := 5 } } :=
  ⟨(C5_snapshot_membership_and_aliasing _).1 1,
   (C5_snapshot_membership_and_aliasing _).2 1 (by decide) { x := 5, y := 5 }⟩

/-! ## Shutdown and admission -/

/-- Claim C3 counterexample: from the initial state the first `Shutdown` call
returns normally, but the second one panics (Go panics on closing an
already-closed channel), so the second call does not "succeed without
faulting" as the claim states. -/
theorem C3_counterexample :
    (Shutdown SysState.init).1 = ShutdownResult.ok ∧
    (Shutdown (Shutdown SysState.init).2).1 = ShutdownResult.panicked := by
  decide

/-- Claim C3 (amended): calling `shutdown()` twice leaves the shutdown flag,
admission queue and all other state exactly as after the first call, but the
second call does not return normally: it panics when it closes the
already-closed `rideRequests` channel.  Shutdown is irreversible and
state-idempotent, yet not call-idempotent. -/
theorem C3_second_shutdown_panics (s : SysState) :
    (Shutdown (Shutdown s).2).2 = (Shutdown s).2 ∧
    (Shutdown (Shutdown s).2).1 = ShutdownResult.panicked := by
  unfold Shutdown
  cases s with
  | mk store queue rides nextRideID shutdown closedChan =>
      cases closedChan <;> simp

/-- Witness for the amended C3 at the initial state. -/
theorem C3_witness :
    (Shutdown (Shutdown SysState.init).2).2 = (Shutdown SysState.init).2 ∧
    (Shutdown (Shutdown SysState.init).2).1 = ShutdownResult.panicked :=
  C3_second_shutdown_panics SysState.init

/-- Claim C4 counterexample: with the admission queue at its full capacity of
150 and shutdown not entered, `RequestRide` does not return a rejection: the
channel send blocks the producer until space frees up. -/
theorem C4_counterexample :
    ({ SysState.init with
        queue := List.replicate 150 { clientID := 1, startLocation := { x := 0, y := 0 },
                                      endLocation := { x := 0, y := 0 } } } : SysState).shutdown = false ∧
    (RequestRide
        { SysState.init with
          queue := List.replicate 150 { clientID := 1, startLocation := { x := 0, y := 0 },
                                        endLocation := { x := 0, y := 0 } } }
        { clientID := 2, startLocation := { x := 1, y := 1 }, endLocation := { x := 2, y := 2 } }).1
      ≠ RequestRideResult.rejected ∧
    (RequestRide
        { SysState.init with
          queue := List.replicate 150 { clientID := 1, startLocation := { x := 0, y := 0 },
                                        endLocation := { x := 0, y := 0 } } }
        { clientID := 2, startLocation := { x := 1, y := 1 }, endLocation := { x := 2, y := 2 } }).1
      = RequestRideResult.blocked := by
  refine ⟨rfl, ?_, ?_⟩ <;>
    simp [RequestRide, SysState.init, queueCapacity, List.length_replicate]

/-- Claim C4 (amended): while shutdown has not been entered (and the channel is
open), a `RequestRide` call with the admission queue full does not return a
rejection — the channel send blocks the producer until space frees; with room
in the queue the request is enqueued at the back and the call reports
acceptance, so no request is ever silently dropped. -/
theorem C4_full_queue_blocks (s : SysState) (request : RideRequest)
    (hsd : s.shutdown = false) (hcl : s.closedChan = false) :
    (s.queue.length < queueCapacity →
       RequestRide s request
         = (RequestRideResult.accepted, { s with queue := s.queue ++ [request] })) ∧
    (queueCapacity ≤ s.queue.length →
       RequestRide s request = (RequestRideResult.blocked, s)) := by
  unfold RequestRide
  rw [hsd, hcl]
  constructor
  · intro hlen
    simp [hlen]
  · intro hlen
    simp [Nat.not_lt.mpr hlen]

/-- Witness for the amended C4: from the empty initial queue the call is
accepted and the request lands at the back of the queue. -/
theorem C4_witness :
    RequestRide SysState.init
        { clientID := 1, startLocation := { x := 0, y := 0 }, endLocation := { x := 3, y := 4 } }
      = (RequestRideResult.accepted,
         { SysState.init with
           queue := [{ clientID := 1, startLocation := { x := 0, y := 0 },
                       endLocation := { x := 3, y := 4 } }] }) :=
  (C4_full_queue_blocks SysState.init
      { clientID := 1, startLocation := { x := 0, y := 0 }, endLocation := { x := 3, y := 4 } }
      rfl rfl).1 (by decide)

/-! ## The closest-taxi search loop -/

lemma findClosestLoop_cons (t : Taxi) (rs : List Taxi) (pickup : Location)
    (acc : Option Taxi) (d : Int) :
    findClosestLoop (t :: rs) pickup acc d =
      if d = -1 ∨ CalculateDistance t.location pickup < d then
        findClosestLoop rs pickup (some t) (CalculateDistance t.location pickup)
      else
        findClosestLoop rs pickup acc d := rfl

/-- Invariant of the scan once a best candidate is held: the final answer is a
taxi of minimal distance, and either the accumulator survives or the answer
sits in the remaining list strictly closer than the accumulator and than every
taxi scanned before it. -/
lemma findClosestLoop_acc_spec (rest : List Taxi) (pickup : Location) :
    ∀ c : Taxi,
      ∃ c', findClosestLoop rest pickup (some c) (CalculateDistance c.location pickup) = some c' ∧
        CalculateDistance c'.location pickup ≤ CalculateDistance c.location pickup ∧
        (∀ t ∈ rest, CalculateDistance c'.location pickup ≤ CalculateDistance t.location pickup) ∧
        (c' = c ∨ ∃ l1 l2, rest = l1 ++ c' :: l2 ∧
           CalculateDistance c'.location pickup < CalculateDistance c.location pickup ∧
           ∀ t ∈ l1, CalculateDistance c'.location pickup < CalculateDistance t.location pickup) := by
  induction rest with
  | nil =>
      intro c
      exact ⟨c, rfl, le_refl _, by simp, Or.inl rfl⟩
  | cons t rs ih =>
      intro c
      rw [findClosestLoop_cons]
      by_cases hlt : CalculateDistance t.location pickup < CalculateDistance c.location pickup
      · rw [if_pos (Or.inr hlt)]
        obtain ⟨c', hres, hle, hall, hfirst⟩ := ih t
        refine ⟨c', hres, le_of_lt (lt_of_le_of_lt hle hlt), ?_, ?_⟩
        · intro u hu
          rcases List.mem_cons.mp hu with h | h
          · rw [h]; exact hle
          · exact hall u h
        · rcases hfirst with h | ⟨l1, l2, hsplit, hltc, hl1⟩
          · rw [h]
            exact Or.inr ⟨[], rs, rfl, hlt, by simp⟩
          · refine Or.inr ⟨t :: l1, l2, by rw [hsplit]; rfl, lt_trans hltc hlt, ?_⟩
            intro u hu
            rcases List.mem_cons.mp hu with h | h
            · rw [h]; exact hltc
            · exact hl1 u h
      · rw [if_neg (by push_neg; exact ⟨calcDist_ne_neg_one c.location pickup, not_lt.mp hlt⟩)]
        obtain ⟨c', hres, hle, hall, hfirst⟩ := ih c
        refine ⟨c', hres, hle, ?_, ?_⟩
        · intro u hu
          rcases List.mem_cons.mp hu with h | h
          · rw [h]; exact le_trans hle (not_lt.mp hlt)
          · exact hall u h
        · rcases hfirst with h | ⟨l1, l2, hsplit, hltc, hl1⟩
          · exact Or.inl h
          · refine Or.inr ⟨t :: l1, l2, by rw [hsplit]; rfl, hltc, ?_⟩
            intro u hu
            rcases List.mem_cons.mp hu with h | h
            · rw [h]; exact lt_of_lt_of_le hltc (not_lt.mp hlt)
            · exact hl1 u h

/-- The whole scan on a non-empty snapshot: the answer is the first taxi (in
snapshot order) attaining the minimum distance to the pickup. -/
lemma findClosest_spec (snap : List Taxi) (pickup : Location) (hne : snap ≠ []) :
    ∃ c l1 l2, findClosestLoop snap pickup none (-1) = some c ∧
      snap = l1 ++ c :: l2 ∧
      (∀ t ∈ snap, CalculateDistance c.location pickup ≤ CalculateDistance t.location pickup) ∧
      (∀ t ∈ l1, CalculateDistance c.location pickup < CalculateDistance t.location pickup) := by
  match snap with
  | [] => exact absurd rfl hne
  | t :: rs =>
      rw [findClosestLoop_cons, if_pos (Or.inl rfl)]
      obtain ⟨c', hres, hle, hall, hfirst⟩ := findClosestLoop_acc_spec rs pickup t
      rcases hfirst with h | ⟨l1, l2, hsplit, hltc, hl1⟩
      · subst h
        refine ⟨c', [], rs, hres, rfl, ?_, by simp⟩
        intro u hu
        rcases List.mem_cons.mp hu with h | h
        · rw [h]
        · exact hall u h
      · refine ⟨c', t :: l1, l2, hres, by rw [hsplit]; rfl, ?_, ?_⟩
        · intro u hu
          rcases List.mem_cons.mp hu with h | h
          · rw [h]; exact hle
          · exact hall u h
        · intro u hu
          rcases List.mem_cons.mp hu with h | h
          · rw [h]; exact hltc
          · exact hl1 u h

/-! ## Characterisation of `AssignClosestTaxi` -/

lemma assign_empty (store : TaxiStore) (ride : Ride) :
    AssignClosestTaxi store [] ride = (none, store, ride) := rfl

/-- When every snapshot taxi is present in the store, assignment picks the
first minimum-distance taxi of the snapshot, reserves it in the store, and
stamps the ride `ASSIGNED` with that taxi's ID. -/
lemma assign_spec (store : TaxiStore) (snapshot : List Taxi) (ride : Ride)
    (hne : snapshot ≠ []) (hsub : ∀ t ∈ snapshot, t ∈ store.taxis) :
    ∃ c l1 l2,
      AssignClosestTaxi store snapshot ride =
        (some c,
         { store with
           taxis := store.taxis.map (fun t => if t.id = c.id then { t with isAvailable := false } else t) },
         { ride with taxiID := c.id, status := RideStatus.ASSIGNED }) ∧
      snapshot = l1 ++ c :: l2 ∧
      (∀ t ∈ snapshot,
         CalculateDistance c.location ride.startLocation
           ≤ CalculateDistance t.location ride.startLocation) ∧
      (∀ t ∈ l1,
         CalculateDistance c.location ride.startLocation
           < CalculateDistance t.location ride.startLocation) := by
  obtain ⟨c, l1, l2, hres, hsplit, hmin, hfirst⟩ :=
    findClosest_spec snapshot ride.startLocation hne
  have hc : c ∈ snapshot := by
    rw [hsplit]
    exact List.mem_append_right _ (List.mem_cons_self _ _)
  have hany : store.taxis.any (fun t => t.id == c.id) = true :=
    (taxis_any_iff _ _).mpr ⟨c, hsub c hc, rfl⟩
  have hset : store.SetAvailability c.id false =
      (true, { store with
               taxis := store.taxis.map (fun t => if t.id = c.id then { t with isAvailable := false } else t) }) := by
    unfold TaxiStore.SetAvailability
    rw [if_pos hany]
  refine ⟨c, l1, l2, ?_, hsplit, hmin, hfirst⟩
  unfold AssignClosestTaxi
  rw [if_neg (by simp [List.isEmpty_iff, hne])]
  simp only [hres, hset]

lemma setAvail_false_pair (ts : TaxiStore) (id : Nat) (b : Bool) (ts1 : TaxiStore)
    (h : ts.SetAvailability id b = (false, ts1)) : ts1 = ts := by
  have h1 : (ts.SetAvailability id b).1 = false := by rw [h]
  have h2 : (ts.SetAvailability id b).2 = ts := setAvail_false_unchanged ts id b h1
  rw [h] at h2
  exact h2

/-- Whenever `AssignClosestTaxi` returns no taxi, it has changed nothing: the
store and the ride come back exactly as they went in. -/
lemma assign_none_eq (store : TaxiStore) (snapshot : List Taxi) (ride : Ride)
    (h : (AssignClosestTaxi store snapshot ride).1 = none) :
    AssignClosestTaxi store snapshot ride = (none, store, ride) := by
  unfold AssignClosestTaxi at h ⊢
  by_cases hne : snapshot.isEmpty = true
  · rw [if_pos hne]
  · rw [if_neg hne] at h ⊢
    rcases hloop : findClosestLoop snapshot ride.startLocation none (-1) with _ | c
    · simp only [hloop]
    · rcases hset : store.SetAvailability c.id false with ⟨ok, store1⟩
      cases ok
      · simp only [hloop, hset, setAvail_false_pair store c.id false store1 hset]
      · exfalso
        simp only [hloop, hset] at h
        exact Option.some_ne_none c h

/-- Claim C2: for every ride and non-empty snapshot (whose taxis are present in
the store, as they are when the snapshot is `GetAllAvailable`),
`AssignClosestTaxi` selects a taxi of minimal Manhattan distance to the ride's
pickup, and it is the first taxi of the snapshot attaining that minimum (all
earlier snapshot entries are strictly farther); concretely, with vehicles at
`(0,0)` and `(10,10)` and pickup `(1,1)`, the vehicle at `(0,0)` is selected. -/
theorem C2_selects_first_closest :
    (∀ (store : TaxiStore) (ride : Ride) (snapshot : List Taxi),
       snapshot ≠ [] → (∀ t ∈ snapshot, t ∈ store.taxis) →
       ∃ c l1 l2,
         (AssignClosestTaxi store snapshot ride).1 = some c ∧
         snapshot = l1 ++ c :: l2 ∧
         (∀ t ∈ snapshot,
            CalculateDistance c.location ride.startLocation
              ≤ CalculateDistance t.location ride.startLocation) ∧
         (∀ t ∈ l1,
            CalculateDistance c.location ride.startLocation
              < CalculateDistance t.location ride.startLocation)) ∧
    (AssignClosestTaxi
        ((TaxiStore.new.Add { x := 0, y := 0 }).2.Add { x := 10, y := 10 }).2
        (((TaxiStore.new.Add { x := 0, y := 0 }).2.Add { x := 10, y := 10 }).2).GetAllAvailable
        { id := 1, clientID := 1, taxiID := 0, startLocation := { x := 1, y := 1 },
          endLocation := { x := 2, y := 2 }, status := RideStatus.CREATED }).1
      = some { id := 1, location := { x := 0, y := 0 }, isAvailable := true } := by
  constructor
  · intro store ride snapshot hne hsub
    obtain ⟨c, l1, l2, heq, hsplit, hmin, hfirst⟩ := assign_spec store snapshot ride hne hsub
    exact ⟨c, l1, l2, by rw [heq], hsplit, hmin, hfirst⟩
  · decide

/-- Witness for C2's general part at the two-taxi store: instantiating at the
concrete snapshot discharges both hypotheses. -/
theorem C2_witness :
    ∃ c l1 l2,
      (AssignClosestTaxi
          ((TaxiStore.new.Add { x := 0, y := 0 }).2.Add { x := 10, y := 10 }).2
          (((TaxiStore.new.Add { x := 0, y := 0 }).2.Add { x := 10, y := 10 }).2).GetAllAvailable
          { id := 1, clientID := 1, taxiID := 0, startLocation := { x := 1, y := 1 },
            endLocation := { x := 2, y := 2 }, status := RideStatus.CREATED }).1 = some c ∧
      (((TaxiStore.new.Add { x := 0, y := 0 }).2.Add { x := 10, y := 10 }).2).GetAllAvailable
        = l1 ++ c :: l2 ∧
      (∀ t ∈ (((TaxiStore.new.Add { x := 0, y := 0 }).2.Add { x := 10, y := 10 }).2).GetAllAvailable,
         CalculateDistance c.location { x := 1, y := 1 } ≤ CalculateDistance t.location { x := 1, y := 1 }) ∧
      (∀ t ∈ l1,
         CalculateDistance c.location { x := 1, y := 1 } < CalculateDistance t.location { x := 1, y := 1 }) :=
  (C2_selects_first_closest).1
    ((TaxiStore.new.Add { x := 0, y := 0 }).2.Add { x := 10, y := 10 }).2
    { id := 1, clientID := 1, taxiID := 0, startLocation := { x := 1, y := 1 },
      endLocation := { x := 2, y := 2 }, status := RideStatus.CREATED }
    (((TaxiStore.new.Add { x := 0, y := 0 }).2.Add { x := 10, y := 10 }).2).GetAllAvailable
    (by decide) (by decide)

/-! ## Ride completion -/

lemma endRide_store_taxis (store : TaxiStore) (ride : Ride) (taxi : Taxi) :
    ((endRide store ride taxi).1).taxis
      = store.taxis.map
          (fun t => if t.id = taxi.id then { t with location := ride.endLocation, isAvailable := true } else t) := by
  unfold endRide
  rw [setAvail_taxis, updateLoc_taxis, List.map_map]
  apply List.map_congr_left
  intro t _
  by_cases hid : t.id = taxi.id <;> simp [hid]

lemma endRide_store_nextID (store : TaxiStore) (ride : Ride) (taxi : Taxi) :
    ((endRide store ride taxi).1).nextID = store.nextID := by
  unfold endRide
  rw [setAvail_nextID, updateLoc_nextID]

lemma endRide_ride (store : TaxiStore) (ride : Ride) (taxi : Taxi) :
    (endRide store ride taxi).2 = { ride with status := RideStatus.FINISHED } := rfl

/-- Claim C7: the ride duration is
`distance(vehicle, pickup) + distance(pickup, dropoff)`; after the completion
handler runs the ride is `FINISHED` and the vehicle sits at the ride's dropoff,
available again; concretely, one vehicle at `(0,0)` serving a ride
`(0,0) → (5,0)` gives duration 5 and ends available at `(5,0)`. -/
theorem C7_duration_and_completion :
    (∀ (taxi : Taxi) (ride : Ride),
        CalculateRideDuration taxi ride
          = CalculateDistance taxi.location ride.startLocation
            + CalculateDistance ride.startLocation ride.endLocation) ∧
    (∀ (store : TaxiStore) (ride : Ride) (taxi : Taxi),
        (∃ t ∈ store.taxis, t.id = taxi.id) →
        ((endRide store ride taxi).2).status = RideStatus.FINISHED ∧
        ∃ t ∈ ((endRide store ride taxi).1).taxis,
          t.id = taxi.id ∧ t.location = ride.endLocation ∧ t.isAvailable = true) ∧
    ((processRequest (TaxiStore.new.Add { x := 0, y := 0 }).2 1
        ((TaxiStore.new.Add { x := 0, y := 0 }).2).GetAllAvailable
        { clientID := 1, startLocation := { x := 0, y := 0 },
          endLocation := { x := 5, y := 0 } }).2.2.taxiID = 1 ∧
     (processRequest (TaxiStore.new.Add { x := 0, y := 0 }).2 1
        ((TaxiStore.new.Add { x := 0, y := 0 }).2).GetAllAvailable
        { clientID := 1, startLocation := { x := 0, y := 0 },
          endLocation := { x := 5, y := 0 } }).2.2.status = RideStatus.IN_PROGRESS ∧
     CalculateRideDuration { id := 1, location := { x := 0, y := 0 }, isAvailable := true }
        (processRequest (TaxiStore.new.Add { x := 0, y := 0 }).2 1
          ((TaxiStore.new.Add { x := 0, y := 0 }).2).GetAllAvailable
          { clientID := 1, startLocation := { x := 0, y := 0 },
            endLocation := { x := 5, y := 0 } }).2.2 = 5 ∧
     ((endRide
          (processRequest (TaxiStore.new.Add { x := 0, y := 0 }).2 1
            ((TaxiStore.new.Add { x := 0, y := 0 }).2).GetAllAvailable
            { clientID := 1, startLocation := { x := 0, y := 0 },
              endLocation := { x := 5, y := 0 } }).1
          (processRequest (TaxiStore.new.Add { x := 0, y := 0 }).2 1
            ((TaxiStore.new.Add { x := 0, y := 0 }).2).GetAllAvailable
            { clientID := 1, startLocation := { x := 0, y := 0 },
              endLocation := { x := 5, y := 0 } }).2.2
          { id := 1, location := { x := 0, y := 0 }, isAvailable := true }).2).status
        = RideStatus.FINISHED ∧
     ((endRide
          (processRequest (TaxiStore.new.Add { x := 0, y := 0 }).2 1
            ((TaxiStore.new.Add { x := 0, y := 0 }).2).GetAllAvailable
            { clientID := 1, startLocation := { x := 0, y := 0 },
              endLocation := { x := 5, y := 0 } }).1
          (processRequest (TaxiStore.new.Add { x := 0, y := 0 }).2 1
            ((TaxiStore.new.Add { x := 0, y := 0 }).2).GetAllAvailable
            { clientID := 1, startLocation := { x := 0, y := 0 },
              endLocation := { x := 5, y := 0 } }).2.2
          { id := 1, location := { x := 0, y := 0 }, isAvailable := true }).1).Get 1
        = some { id := 1, location := { x := 5, y := 0 }, isAvailable := true }) := by
  refine ⟨fun taxi ride => rfl, ?_, by decide⟩
  rintro store ride taxi ⟨t0, ht0, hid⟩
  refine ⟨rfl, ?_⟩
  rw [endRide_store_taxis]
  refine ⟨{ t0 with location := ride.endLocation, isAvailable := true }, ?_, hid, rfl, rfl⟩
  rw [List.mem_map]
  exact ⟨t0, ht0, by simp [hid]⟩

/-- Witness for C7's completion contract at a concrete one-taxi store. -/
theorem C7_witness :
    ((endRide (TaxiStore.new.Add { x := 0, y := 0 }).2
        { id := 1, clientID := 1, taxiID := 1, startLocation := { x := 0, y := 0 },
          endLocation := { x := 5, y := 0 }, status := RideStatus.IN_PROGRESS }
        { id := 1, location := { x := 0, y := 0 }, isAvailable := true }).2).status
      = RideStatus.FINISHED ∧
    ∃ t ∈ ((endRide (TaxiStore.new.Add { x := 0, y := 0 }).2
        { id := 1, clientID := 1, taxiID := 1, startLocation := { x := 0, y := 0 },
          endLocation := { x := 5, y := 0 }, status := RideStatus.IN_PROGRESS }
        { id := 1, location := { x := 0, y := 0 }, isAvailable := true }).1).taxis,
      t.id = 1 ∧ t.location = { x := 5, y := 0 } ∧ t.isAvailable = true :=
  C7_duration_and_completion.2.1 (TaxiStore.new.Add { x := 0, y := 0 }).2
    { id := 1, clientID := 1, taxiID := 1, startLocation := { x := 0, y := 0 },
      endLocation := { x := 5, y := 0 }, status := RideStatus.IN_PROGRESS }
    { id := 1, location := { x := 0, y := 0 }, isAvailable := true }
    ⟨{ id := 1, location := { x := 0, y := 0 }, isAvailable := true }, by decide, rfl⟩

/-! ## Preservation of the system invariant -/

lemma taxi_eq_of_id_eq (l : List Taxi) (hn : (l.map Taxi.id).Nodup)
    (t u : Taxi) (ht : t ∈ l) (hu : u ∈ l) (hid : t.id = u.id) : t = u :=
  List.inj_on_of_nodup_map hn ht hu hid

lemma ride_eq_of_id_eq (l : List Ride) (hn : (l.map Ride.id).Nodup)
    (r q : Ride) (hr : r ∈ l) (hq : q ∈ l) (hid : r.id = q.id) : r = q :=
  List.inj_on_of_nodup_map hn hr hq hid

lemma map_preserving_ids_taxi (l : List Taxi) (f : Taxi → Taxi)
    (hf : ∀ t, (f t).id = t.id) : (l.map f).map Taxi.id = l.map Taxi.id := by
  rw [List.map_map]
  exact List.map_congr_left (fun t _ => hf t)

lemma map_preserving_ids_ride (l : List Ride) (f : Ride → Ride)
    (hf : ∀ r, (f r).id = r.id) : (l.map f).map Ride.id = l.map Ride.id := by
  rw [List.map_map]
  exact List.map_congr_left (fun r _ => hf r)

lemma sysInv_init : SysInv SysState.init := by
  constructor <;> simp [SysState.init, TaxiStore.new]

lemma sysInv_of_eq (s s1 : SysState) (h : SysInv s) (hst : s1.store = s.store)
    (hr : s1.rides = s.rides) (hn : s1.nextRideID = s.nextRideID) : SysInv s1 :=
  ⟨by rw [hst]; exact h.taxiIdsNodup,
   by rw [hst]; exact h.taxiIdsLt,
   by rw [hr]; exact h.rideIdsNodup,
   by rw [hr, hn]; exact h.rideIdsLt,
   by rw [hr, hst]; exact h.activeRef,
   by rw [hst, hr]; exact h.availIff,
   by rw [hr]; exact h.uniqueRes⟩

lemma requestRide_store (s : SysState) (request : RideRequest) :
    ((RequestRide s request).2).store = s.store := by
  unfold RequestRide
  split_ifs <;> rfl

lemma requestRide_rides (s : SysState) (request : RideRequest) :
    ((RequestRide s request).2).rides = s.rides := by
  unfold RequestRide
  split_ifs <;> rfl

lemma requestRide_nextRideID (s : SysState) (request : RideRequest) :
    ((RequestRide s request).2).nextRideID = s.nextRideID := by
  unfold RequestRide
  split_ifs <;> rfl

lemma shutdown_store (s : SysState) : ((Shutdown s).2).store = s.store := by
  simp only [Shutdown]
  split_ifs <;> rfl

lemma shutdown_rides (s : SysState) : ((Shutdown s).2).rides = s.rides := by
  simp only [Shutdown]
  split_ifs <;> rfl

lemma shutdown_nextRideID (s : SysState) : ((Shutdown s).2).nextRideID = s.nextRideID := by
  simp only [Shutdown]
  split_ifs <;> rfl

lemma sysInv_register (s : SysState) (loc : Location) (h : SysInv s) :
    SysInv { s with store := (s.store.Add loc).2 } := by
  have hnew : ((s.store.Add loc).2).taxis
      = s.store.taxis ++ [{ id := s.store.nextID, location := loc, isAvailable := true }] := rfl
  have hnid : ((s.store.Add loc).2).nextID = s.store.nextID + 1 := rfl
  constructor
  · show (((s.store.Add loc).2).taxis.map Taxi.id).Nodup
    rw [hnew, List.map_append]
    rw [List.nodup_append]
    refine ⟨h.taxiIdsNodup, by simp, ?_⟩
    intro i hi
    simp only [List.map_cons, List.map_nil, List.mem_singleton]
    obtain ⟨t, htm, hti⟩ := List.mem_map.mp hi
    intro hcon
    rw [hcon] at hti
    exact absurd (hti ▸ h.taxiIdsLt t htm) (lt_irrefl _)
  · show ∀ t ∈ ((s.store.Add loc).2).taxis, t.id < ((s.store.Add loc).2).nextID
    rw [hnew, hnid]
    intro t ht
    rcases List.mem_append.mp ht with hm | hm
    · exact lt_trans (h.taxiIdsLt t hm) (Nat.lt_succ_self _)
    · rw [List.mem_singleton.mp hm]
      exact Nat.lt_succ_self _
  · exact h.rideIdsNodup
  · exact h.rideIdsLt
  · intro r hr hact
    obtain ⟨t, htm, hti⟩ := h.activeRef r hr hact
    exact ⟨t, by rw [hnew]; exact List.mem_append_left _ htm, hti⟩
  · show ∀ t ∈ ((s.store.Add loc).2).taxis, _
    rw [hnew]
    intro t ht
    rcases List.mem_append.mp ht with hm | hm
    · exact h.availIff t hm
    · rw [List.mem_singleton.mp hm]
      simp only [show ({ id := s.store.nextID, location := loc, isAvailable := true } : Taxi).isAvailable = true from rfl]
      constructor
      · intro hcon
        exact absurd hcon (by simp)
      · rintro ⟨r, hrm, hact, hrt⟩
        obtain ⟨t0, ht0m, ht0i⟩ := h.activeRef r hrm hact
        have : t0.id < s.store.nextID := h.taxiIdsLt t0 ht0m
        rw [ht0i, hrt] at this
        exact absurd this (by simp)
  · exact h.uniqueRes

lemma sysInv_submit (s : SysState) (request : RideRequest) (h : SysInv s) :
    SysInv (RequestRide s request).2 :=
  sysInv_of_eq s _ h (requestRide_store s request) (requestRide_rides s request)
    (requestRide_nextRideID s request)

lemma sysInv_shutdown (s : SysState) (h : SysInv s) : SysInv (Shutdown s).2 :=
  sysInv_of_eq s _ h (shutdown_store s) (shutdown_rides s) (shutdown_nextRideID s)

lemma created_not_active (r : Ride) (h : r.status = RideStatus.CREATED) : ¬rideActive r := by
  intro hact
  rcases hact with ha | ha <;> rw [h] at ha <;> exact RideStatus.noConfusion ha

lemma finished_not_active (r : Ride) (h : r.status = RideStatus.FINISHED) : ¬rideActive r := by
  intro hact
  rcases hact with ha | ha <;> rw [h] at ha <;> exact RideStatus.noConfusion ha

/-- Appending an inactive ride with a fresh ID (and bumping the ride counter)
preserves the invariant. -/
lemma sysInv_append_inactive (s : SysState) (r0 : Ride) (hact : ¬rideActive r0)
    (hid : r0.id = s.nextRideID) (h : SysInv s) :
    SysInv { s with rides := s.rides ++ [r0], nextRideID := s.nextRideID + 1 } := by
  constructor
  · exact h.taxiIdsNodup
  · exact h.taxiIdsLt
  · show ((s.rides ++ [r0]).map Ride.id).Nodup
    rw [List.map_append, List.nodup_append]
    refine ⟨h.rideIdsNodup, by simp, ?_⟩
    intro i hi
    simp only [List.map_cons, List.map_nil, List.mem_singleton]
    obtain ⟨r, hrm, hri⟩ := List.mem_map.mp hi
    intro hcon
    rw [hcon, hid] at hri
    exact absurd (hri ▸ h.rideIdsLt r hrm) (lt_irrefl _)
  · show ∀ r ∈ s.rides ++ [r0], r.id < s.nextRideID + 1
    intro r hr
    rcases List.mem_append.mp hr with hm | hm
    · exact lt_trans (h.rideIdsLt r hm) (Nat.lt_succ_self _)
    · rw [List.mem_singleton.mp hm, hid]
      exact Nat.lt_succ_self _
  · intro r hr hactr
    rcases List.mem_append.mp hr with hm | hm
    · exact h.activeRef r hm hactr
    · rw [List.mem_singleton.mp hm] at hactr
      exact absurd hactr hact
  · intro t ht
    rw [h.availIff t ht]
    constructor
    · rintro ⟨r, hrm, hactr, hrt⟩
      exact ⟨r, List.mem_append_left _ hrm, hactr, hrt⟩
    · rintro ⟨r, hrm, hactr, hrt⟩
      rcases List.mem_append.mp hrm with hm | hm
      · exact ⟨r, hm, hactr, hrt⟩
      · rw [List.mem_singleton.mp hm] at hactr
        exact absurd hactr hact
  · intro r1 hr1 r2 hr2 hact1 hact2 heq
    rcases List.mem_append.mp hr1 with hm1 | hm1
    · rcases List.mem_append.mp hr2 with hm2 | hm2
      · exact h.uniqueRes r1 hm1 r2 hm2 hact1 hact2 heq
      · rw [List.mem_singleton.mp hm2] at hact2
        exact absurd hact2 hact
    · rw [List.mem_singleton.mp hm1] at hact1
      exact absurd hact1 hact

/-- Reserving an available taxi `c` (marking it unavailable) while appending a
fresh active ride holding `c` preserves the invariant. -/
lemma sysInv_assign (s : SysState) (c : Taxi) (r0 : Ride)
    (hcm : c ∈ s.store.taxis) (hca : c.isAvailable = true)
    (hid : r0.id = s.nextRideID) (htid : r0.taxiID = c.id)
    (hact : rideActive r0) (h : SysInv s) :
    SysInv { s with
             store := { s.store with
                        taxis := s.store.taxis.map (fun t => if t.id = c.id then { t with isAvailable := false } else t) },
             rides := s.rides ++ [r0],
             nextRideID := s.nextRideID + 1 } := by
  have hfid : ∀ t : Taxi,
      ((fun t => if t.id = c.id then { t with isAvailable := false } else t) t).id = t.id := by
    intro t
    by_cases ht : t.id = c.id <;> simp [ht]
  have hnores : ¬∃ r ∈ s.rides, rideActive r ∧ r.taxiID = c.id := by
    intro hex
    have hfalse := (h.availIff c hcm).mpr hex
    rw [hca] at hfalse
    exact absurd hfalse (by simp)
  constructor
  · show ((s.store.taxis.map _).map Taxi.id).Nodup
    rw [map_preserving_ids_taxi _ _ hfid]
    exact h.taxiIdsNodup
  · intro t1 ht1
    obtain ⟨t, htm, hft⟩ := List.mem_map.mp ht1
    show t1.id < s.store.nextID
    rw [← hft, hfid]
    exact h.taxiIdsLt t htm
  · show ((s.rides ++ [r0]).map Ride.id).Nodup
    rw [List.map_append, List.nodup_append]
    refine ⟨h.rideIdsNodup, by simp, ?_⟩
    intro i hi
    simp only [List.map_cons, List.map_nil, List.mem_singleton]
    obtain ⟨r, hrm, hri⟩ := List.mem_map.mp hi
    intro hcon
    rw [hcon, hid] at hri
    exact absurd (hri ▸ h.rideIdsLt r hrm) (lt_irrefl _)
  · intro r hr
    rcases List.mem_append.mp hr with hm | hm
    · exact lt_trans (h.rideIdsLt r hm) (Nat.lt_succ_self _)
    · rw [List.mem_singleton.mp hm, hid]
      exact Nat.lt_succ_self _
  · intro r hr hactr
    rcases List.mem_append.mp hr with hm | hm
    · obtain ⟨t, htm, hti⟩ := h.activeRef r hm hactr
      refine ⟨_, List.mem_map_of_mem _ htm, ?_⟩
      rw [hfid]
      exact hti
    · rw [List.mem_singleton.mp hm]
      refine ⟨_, List.mem_map_of_mem _ hcm, ?_⟩
      rw [hfid, htid]
  · intro t1 ht1
    obtain ⟨t, htm, hft⟩ := List.mem_map.mp ht1
    by_cases hteq : t.id = c.id
    · have htc : t = c := taxi_eq_of_id_eq _ h.taxiIdsNodup t c htm hcm hteq
      subst htc
      rw [if_pos hteq] at hft
      constructor
      · intro _
        refine ⟨r0, List.mem_append_right _ (List.mem_singleton_self _), hact, ?_⟩
        rw [htid, ← hft]
      · intro _
        rw [← hft]
    · rw [if_neg hteq] at hft
      subst hft
      rw [h.availIff t htm]
      constructor
      · rintro ⟨r, hrm, hactr, hrt⟩
        exact ⟨r, List.mem_append_left _ hrm, hactr, hrt⟩
      · rintro ⟨r, hrm, hactr, hrt⟩
        rcases List.mem_append.mp hrm with hm | hm
        · exact ⟨r, hm, hactr, hrt⟩
        · rw [List.mem_singleton.mp hm] at hactr hrt
          rw [htid] at hrt
          exact absurd hrt.symm hteq
  · intro r1 hr1 r2 hr2 hact1 hact2 heq
    rcases List.mem_append.mp hr1 with hm1 | hm1
    · rcases List.mem_append.mp hr2 with hm2 | hm2
      · exact h.uniqueRes r1 hm1 r2 hm2 hact1 hact2 heq
      · rw [List.mem_singleton.mp hm2] at heq
        rw [htid] at heq
        exact absurd ⟨r1, hm1, hact1, heq⟩ hnores
    · rcases List.mem_append.mp hr2 with hm2 | hm2
      · rw [List.mem_singleton.mp hm1] at heq
        rw [htid] at heq
        exact absurd ⟨r2, hm2, hact2, heq.symm⟩ hnores
      · rw [List.mem_singleton.mp hm1, List.mem_singleton.mp hm2]

lemma sysInv_process (s : SysState) (request : RideRequest) (rest : List RideRequest)
    (snapshot : List Taxi) (_hq : s.queue = request :: rest)
    (hsnap : List.Perm snapshot s.store.GetAllAvailable) (h : SysInv s) :
    SysInv { s with
             store := (processRequest s.store s.nextRideID snapshot request).1,
             queue := rest,
             rides := s.rides ++ [(processRequest s.store s.nextRideID snapshot request).2.2],
             nextRideID := (processRequest s.store s.nextRideID snapshot request).2.1 } := by
  rcases hres : (AssignClosestTaxi s.store snapshot
      { id := s.nextRideID, clientID := request.clientID, taxiID := 0,
        startLocation := request.startLocation, endLocation := request.endLocation,
        status := RideStatus.CREATED }).1 with _ | c
  · have heq := assign_none_eq _ _ _ hres
    have hP : processRequest s.store s.nextRideID snapshot request
        = (s.store, s.nextRideID + 1,
           { id := s.nextRideID, clientID := request.clientID, taxiID := 0,
             startLocation := request.startLocation, endLocation := request.endLocation,
             status := RideStatus.CREATED }) := by
      unfold processRequest
      simp only [heq]
    rw [hP]
    exact sysInv_of_eq _ _ (sysInv_append_inactive s _ (created_not_active _ rfl) rfl h)
      rfl rfl rfl
  · have hne : snapshot ≠ [] := by
      intro hnil
      rw [hnil, assign_empty] at hres
      simp at hres
    have hsub : ∀ t ∈ snapshot, t ∈ s.store.taxis := by
      intro t ht
      exact (List.mem_filter.mp (hsnap.subset ht)).1
    obtain ⟨c1, l1, l2, heq, hsplit, _, _⟩ := assign_spec s.store snapshot
      { id := s.nextRideID, clientID := request.clientID, taxiID := 0,
        startLocation := request.startLocation, endLocation := request.endLocation,
        status := RideStatus.CREATED } hne hsub
    have hc1 : c1 ∈ snapshot := by
      rw [hsplit]
      exact List.mem_append_right _ (List.mem_cons_self _ _)
    have hcm : c1 ∈ s.store.taxis := hsub c1 hc1
    have hca : c1.isAvailable = true := (List.mem_filter.mp (hsnap.subset hc1)).2
    have hP : processRequest s.store s.nextRideID snapshot request
        = ({ s.store with
             taxis := s.store.taxis.map (fun t => if t.id = c1.id then { t with isAvailable := false } else t) },
           s.nextRideID + 1,
           { id := s.nextRideID, clientID := request.clientID, taxiID := c1.id,
             startLocation := request.startLocation, endLocation := request.endLocation,
             status := RideStatus.IN_PROGRESS }) := by
      unfold processRequest
      simp only [heq]
    rw [hP]
    exact sysInv_of_eq _ _
      (sysInv_assign s c1
        { id := s.nextRideID, clientID := request.clientID, taxiID := c1.id,
          startLocation := request.startLocation, endLocation := request.endLocation,
          status := RideStatus.IN_PROGRESS }
        hcm hca rfl rfl (Or.inr rfl) h)
      rfl rfl rfl

lemma sysInv_complete (s : SysState) (ride : Ride) (taxi : Taxi)
    (hr : ride ∈ s.rides) (hst : ride.status = RideStatus.IN_PROGRESS)
    (hid : taxi.id = ride.taxiID) (h : SysInv s) :
    SysInv { s with
             store := (endRide s.store ride taxi).1,
             rides := s.rides.map (fun r => if r.id = ride.id then (endRide s.store ride taxi).2 else r) } := by
  have hrideact : rideActive ride := Or.inr hst
  have hfin : (endRide s.store ride taxi).2 = { ride with status := RideStatus.FINISHED } := rfl
  have hfinact : ¬rideActive ((endRide s.store ride taxi).2) := by
    rw [hfin]
    exact finished_not_active _ rfl
  have hgid : ∀ t : Taxi,
      ((fun t => if t.id = taxi.id then { t with location := ride.endLocation, isAvailable := true } else t) t).id
        = t.id := by
    intro t
    show (if t.id = taxi.id then { t with location := ride.endLocation, isAvailable := true } else t).id = t.id
    by_cases h1 : t.id = taxi.id
    · rw [if_pos h1]
    · rw [if_neg h1]
  have hfid : ∀ r : Ride,
      ((fun r => if r.id = ride.id then (endRide s.store ride taxi).2 else r) r).id = r.id := by
    intro r
    show (if r.id = ride.id then (endRide s.store ride taxi).2 else r).id = r.id
    by_cases h1 : r.id = ride.id
    · rw [if_pos h1, hfin]
      exact h1.symm
    · rw [if_neg h1]
  have hactmem : ∀ r1 : Ride,
      r1 ∈ s.rides.map (fun r => if r.id = ride.id then (endRide s.store ride taxi).2 else r) →
      rideActive r1 → r1 ∈ s.rides ∧ r1.id ≠ ride.id := by
    intro r1 hm hact
    obtain ⟨r, hrm, hfr⟩ := List.mem_map.mp hm
    have hfr1 : (if r.id = ride.id then (endRide s.store ride taxi).2 else r) = r1 := hfr
    by_cases h1 : r.id = ride.id
    · rw [if_pos h1] at hfr1
      rw [← hfr1] at hact
      exact absurd hact hfinact
    · rw [if_neg h1] at hfr1
      rw [← hfr1]
      exact ⟨hrm, h1⟩
  have hkeep : ∀ r ∈ s.rides, r.id ≠ ride.id →
      r ∈ s.rides.map (fun r => if r.id = ride.id then (endRide s.store ride taxi).2 else r) := by
    intro r hrm h1
    have hmem := List.mem_map_of_mem
      (fun r => if r.id = ride.id then (endRide s.store ride taxi).2 else r) hrm
    have heq1 : (if r.id = ride.id then (endRide s.store ride taxi).2 else r) = r := if_neg h1
    simp only [heq1] at hmem
    exact hmem
  constructor
  · show ((((endRide s.store ride taxi).1).taxis).map Taxi.id).Nodup
    rw [endRide_store_taxis, map_preserving_ids_taxi _ _ hgid]
    exact h.taxiIdsNodup
  · show ∀ t ∈ ((endRide s.store ride taxi).1).taxis, t.id < ((endRide s.store ride taxi).1).nextID
    rw [endRide_store_taxis, endRide_store_nextID]
    intro t1 ht1
    obtain ⟨t, htm, hft⟩ := List.mem_map.mp ht1
    rw [← hft, hgid]
    exact h.taxiIdsLt t htm
  · show ((s.rides.map _).map Ride.id).Nodup
    rw [map_preserving_ids_ride _ _ hfid]
    exact h.rideIdsNodup
  · intro r1 h1
    obtain ⟨r, hrm, hfr⟩ := List.mem_map.mp h1
    show r1.id < s.nextRideID
    rw [← hfr, hfid]
    exact h.rideIdsLt r hrm
  · intro r1 hm hact
    obtain ⟨hr1m, _⟩ := hactmem r1 hm hact
    obtain ⟨t, htm, hti⟩ := h.activeRef r1 hr1m hact
    show ∃ t ∈ ((endRide s.store ride taxi).1).taxis, t.id = r1.taxiID
    rw [endRide_store_taxis]
    refine ⟨_, List.mem_map_of_mem _ htm, ?_⟩
    rw [hgid]
    exact hti
  · show ∀ t1 ∈ ((endRide s.store ride taxi).1).taxis, _
    rw [endRide_store_taxis]
    intro t1 ht1
    obtain ⟨t, htm, hft⟩ := List.mem_map.mp ht1
    have hft1 : (if t.id = taxi.id then { t with location := ride.endLocation, isAvailable := true } else t) = t1 :=
      hft
    by_cases h1 : t.id = taxi.id
    · rw [if_pos h1] at hft1
      subst hft1
      constructor
      · intro hcon
        exact absurd hcon (by simp)
      · rintro ⟨r1, hm, hact1, ht1id⟩
        obtain ⟨hr1m, hne⟩ := hactmem r1 hm hact1
        have hrr : r1 = ride :=
          h.uniqueRes r1 hr1m ride hr hact1 hrideact (by rw [ht1id]; show t.id = ride.taxiID; rw [← hid, h1])
        exact absurd (by rw [hrr] : r1.id = ride.id) hne
    · rw [if_neg h1] at hft1
      subst hft1
      rw [h.availIff t htm]
      constructor
      · rintro ⟨r, hrm, hact1, hrt⟩
        have hne2 : r.id ≠ ride.id := by
          intro hcon
          have hreq : r = ride := ride_eq_of_id_eq _ h.rideIdsNodup r ride hrm hr hcon
          rw [hreq] at hrt
          exact h1 (by rw [← hrt, ← hid])
        exact ⟨r, hkeep r hrm hne2, hact1, hrt⟩
      · rintro ⟨r1, hm, hact1, hrt⟩
        obtain ⟨hr1m, _⟩ := hactmem r1 hm hact1
        exact ⟨r1, hr1m, hact1, hrt⟩
  · intro r1 h1 r2 h2 ha1 ha2 heq
    obtain ⟨hm1, _⟩ := hactmem r1 h1 ha1
    obtain ⟨hm2, _⟩ := hactmem r2 h2 ha2
    exact h.uniqueRes r1 hm1 r2 hm2 ha1 ha2 heq

lemma sysInv_step (s s1 : SysState) (hstep : Step s s1) (h : SysInv s) : SysInv s1 := by
  cases hstep with
  | register loc => exact sysInv_register s loc h
  | submit request => exact sysInv_submit s request h
  | process request rest snapshot hq hsnap =>
      exact sysInv_process s request rest snapshot hq hsnap h
  | complete ride taxi hr hst hid => exact sysInv_complete s ride taxi hr hst hid h
  | shutdownCall => exact sysInv_shutdown s h

lemma reachable_sysInv (s : SysState) (h : Reachable s) : SysInv s := by
  unfold Reachable at h
  induction h with
  | refl => exact sysInv_init
  | tail _ hbc ih => exact sysInv_step _ _ hbc ih

/-- Claim C1: in every reachable state, a vehicle's `available` flag is false
exactly when it is the `assignedVehicleId` of some ride in `ASSIGNED` or
`IN_PROGRESS` state, no two rides hold a reservation on the same vehicle at
the same time, and a reserved vehicle never appears in the availability
snapshot a later assignment scans — so it cannot be selected again before its
completion handler frees it. -/
theorem C1_availability_iff_reserved (s : SysState) (h : Reachable s) :
    (∀ t ∈ s.store.taxis,
        (t.isAvailable = false ↔
          ∃ r ∈ s.rides,
            (r.status = RideStatus.ASSIGNED ∨ r.status = RideStatus.IN_PROGRESS) ∧
            r.taxiID = t.id)) ∧
    (∀ r1 ∈ s.rides, ∀ r2 ∈ s.rides,
        (r1.status = RideStatus.ASSIGNED ∨ r1.status = RideStatus.IN_PROGRESS) →
        (r2.status = RideStatus.ASSIGNED ∨ r2.status = RideStatus.IN_PROGRESS) →
        r1.taxiID = r2.taxiID → r1 = r2) ∧
    (∀ t ∈ s.store.taxis,
        (∃ r ∈ s.rides,
            (r.status = RideStatus.ASSIGNED ∨ r.status = RideStatus.IN_PROGRESS) ∧
            r.taxiID = t.id) →
        t ∉ s.store.GetAllAvailable) := by
  have hinv := reachable_sysInv s h
  refine ⟨hinv.availIff, hinv.uniqueRes, ?_⟩
  intro t ht hex
  have hunav : t.isAvailable = false := (hinv.availIff t ht).mpr hex
  intro hmem
  have := (List.mem_filter.mp hmem).2
  rw [hunav] at this
  exact absurd this (by simp)

/-- Witness for C1 at the reachable state with one registered vehicle: the
invariant holds after a single `register` step from the initial state. -/
theorem C1_witness :
    (∀ t ∈ ({ SysState.init with
              store := (SysState.init.store.Add { x := 0, y := 0 }).2 } : SysState).store.taxis,
        (t.isAvailable = false ↔
          ∃ r ∈ ({ SysState.init with
                   store := (SysState.init.store.Add { x := 0, y := 0 }).2 } : SysState).rides,
            (r.status = RideStatus.ASSIGNED ∨ r.status = RideStatus.IN_PROGRESS) ∧
            r.taxiID = t.id)) ∧
    (∀ r1 ∈ ({ SysState.init with
               store := (SysState.init.store.Add { x := 0, y := 0 }).2 } : SysState).rides,
        ∀ r2 ∈ ({ SysState.init with
                  store := (SysState.init.store.Add { x := 0, y := 0 }).2 } : SysState).rides,
        (r1.status = RideStatus.ASSIGNED ∨ r1.status = RideStatus.IN_PROGRESS) →
        (r2.status = RideStatus.ASSIGNED ∨ r2.status = RideStatus.IN_PROGRESS) →
        r1.taxiID = r2.taxiID → r1 = r2) ∧
    (∀ t ∈ ({ SysState.init with
              store := (SysState.init.store.Add { x := 0, y := 0 }).2 } : SysState).store.taxis,
        (∃ r ∈ ({ SysState.init with
                  store := (SysState.init.store.Add { x := 0, y := 0 }).2 } : SysState).rides,
            (r.status = RideStatus.ASSIGNED ∨ r.status = RideStatus.IN_PROGRESS) ∧
            r.taxiID = t.id) →
        t ∉ ({ SysState.init with
               store := (SysState.init.store.Add { x := 0, y := 0 }).2 } : SysState).store.GetAllAvailable) :=
  C1_availability_iff_reserved
    { SysState.init with store := (SysState.init.store.Add { x := 0, y := 0 }).2 }
    (Relation.ReflTransGen.single (Step.register SysState.init { x := 0, y := 0 }))

/-- Claim C6: when zero vehicles are available, `AssignClosestTaxi` returns
`none` and leaves both the store and the ride (status `CREATED`, `taxiID`
untouched) exactly as they were; `processRequest` then records the ride in
`CREATED` with no vehicle and no store change; and no step of the system ever
modifies a `CREATED` ride again — the scheduler consumes the request and never
retries or requeues it. -/
theorem C6_no_vehicle_ride_dropped :
    (∀ (store : TaxiStore) (ride : Ride) (snapshot : List Taxi),
        store.GetAllAvailable = [] → List.Perm snapshot store.GetAllAvailable →
        AssignClosestTaxi store snapshot ride = (none, store, ride)) ∧
    (∀ (store : TaxiStore) (nextRideID : Nat) (request : RideRequest) (snapshot : List Taxi),
        store.GetAllAvailable = [] → List.Perm snapshot store.GetAllAvailable →
        processRequest store nextRideID snapshot request
          = (store, nextRideID + 1,
             { id := nextRideID, clientID := request.clientID, taxiID := 0,
               startLocation := request.startLocation, endLocation := request.endLocation,
               status := RideStatus.CREATED })) ∧
    (∀ (s s1 : SysState), Reachable s → Step s s1 →
        ∀ r ∈ s.rides, r.status = RideStatus.CREATED → r ∈ s1.rides) := by
  have hempty : ∀ (store : TaxiStore) (ride : Ride) (snapshot : List Taxi),
      store.GetAllAvailable = [] → List.Perm snapshot store.GetAllAvailable →
      AssignClosestTaxi store snapshot ride = (none, store, ride) := by
    intro store ride snapshot hav hperm
    have hnil : snapshot = [] := by
      rw [hav] at hperm
      exact List.Perm.eq_nil hperm
    rw [hnil]
    exact assign_empty store ride
  refine ⟨hempty, ?_, ?_⟩
  · intro store nextRideID request snapshot hav hperm
    unfold processRequest
    simp only [hempty store
      { id := nextRideID, clientID := request.clientID, taxiID := 0,
        startLocation := request.startLocation, endLocation := request.endLocation,
        status := RideStatus.CREATED } snapshot hav hperm]
  · intro s s1 hreach hstep r hrm hstat
    have hinv := reachable_sysInv s hreach
    cases hstep with
    | register loc => exact hrm
    | submit request =>
        rw [requestRide_rides]
        exact hrm
    | process request rest snapshot hq hsnap =>
        exact List.mem_append_left _ hrm
    | complete ride taxi hr hst hid =>
        have hne : r.id ≠ ride.id := by
          intro hcon
          have hreq : r = ride := ride_eq_of_id_eq _ hinv.rideIdsNodup r ride hrm hr hcon
          rw [hreq, hst] at hstat
          exact RideStatus.noConfusion hstat
        have hmem := List.mem_map_of_mem
          (fun q => if q.id = ride.id then (endRide s.store ride taxi).2 else q) hrm
        have heq1 : (if r.id = ride.id then (endRide s.store ride taxi).2 else r) = r := if_neg hne
        simp only [heq1] at hmem
        exact hmem
    | shutdownCall =>
        rw [shutdown_rides]
        exact hrm

/-- Witness for C6 at the empty store: assignment returns `none` with store and
ride untouched, and request processing yields the `CREATED` ride unchanged. -/
theorem C6_witness :
    AssignClosestTaxi TaxiStore.new []
        { id := 1, clientID := 1, taxiID := 0, startLocation := { x := 0, y := 0 },
          endLocation := { x := 1, y := 1 }, status := RideStatus.CREATED }
      = (none, TaxiStore.new,
         { id := 1, clientID := 1, taxiID := 0, startLocation := { x := 0, y := 0 },
           endLocation := { x := 1, y := 1 }, status := RideStatus.CREATED }) ∧
    processRequest TaxiStore.new 1 []
        { clientID := 1, startLocation := { x := 0, y := 0 }, endLocation := { x := 1, y := 1 } }
      = (TaxiStore.new, 1 + 1,
         { id := 1, clientID := 1, taxiID := 0, startLocation := { x := 0, y := 0 },
           endLocation := { x := 1, y := 1 }, status := RideStatus.CREATED }) :=
  ⟨C6_no_vehicle_ride_dropped.1 TaxiStore.new
      { id := 1, clientID := 1, taxiID := 0, startLocation := { x := 0, y := 0 },
        endLocation := { x := 1, y := 1 }, status := RideStatus.CREATED } [] rfl List.Perm.nil,
   C6_no_vehicle_ride_dropped.2.1 TaxiStore.new 1
      { clientID := 1, startLocation := { x := 0, y := 0 }, endLocation := { x := 1, y := 1 } }
      [] rfl List.Perm.nil⟩
